import Mathlib

/-!
Shallow embedding of the smart-sdk-travel-agent repository's stateful and
pure operations, and proofs about them.

Covered source files:
* `checkout-mcp/server/checkout_mcp_server.py` — the two-phase booking tools
  `reserve_flight` / `confirm_reservation` over the global `RESERVATIONS` dict.
* `benefits-mcp/server/benefits_mcp_server.py` — `get_card_benefits_internal`
  and the `@mcp.tool()`-registered `get_card_benefits`.
* `chase-travel-mcp/server/chase_travel_mcp_server.py` — `search_flights_internal`
  and the `search_flights` tool.
* `travel_assistant.py` — the per-connection websocket `handler` loop.

Conventions: Python dicts holding heterogeneous error details become
`List (String × DetailVal)`; the nondeterministic `request_id` / timestamp
strings produced by `datetime.now()` are passed in as explicit `rid` / `ts`
arguments; Python string truthiness (`if not s`) becomes `s = ""`; the global
`RESERVATIONS` dict becomes an explicit `Store` value threaded through each
operation, returned unchanged on the paths where the Python code raises
before mutating.
-/

namespace TravelAgent

/-- A value in an error's `details` dict: the code only ever stores strings
or lists of strings there. -/
inductive DetailVal where
  | str : String → DetailVal
  | strList : List String → DetailVal
  deriving DecidableEq, Repr

/-- Embedding of the `CheckoutError` exception: `message`, `error_code`,
`details`. -/
structure CheckoutError where
  message : String
  error_code : String
  details : List (String × DetailVal)
  deriving DecidableEq, Repr

/-- One entry of the `RESERVATIONS` dict, as written by `reserve_flight`
(the `created_at` / `confirmed_at` timestamps are dropped: no operation
reads them). -/
structure Reservation where
  departureAirportCode : String
  destinationAirportCode : String
  departureDate : String
  arrivalDate : String
  numberOfPassengers : Int
  paymentMethod : String
  reservationStatus : String
  deriving DecidableEq, Repr

/-- The global `RESERVATIONS : Dict[str, Dict[str, Any]]` store. -/
abbrev Store := String → Option Reservation

/-- The empty `RESERVATIONS` dict (module initialisation). -/
def Store.empty : Store := fun _ => none

/-- `RESERVATIONS[k] = v` — dict assignment replaces any existing entry. -/
def Store.set (s : Store) (k : String) (v : Reservation) : Store :=
  fun k2 => if k2 = k then some v else s k2

/-- The arguments of the `reserve_flight` tool. -/
structure ReserveArgs where
  departureAirportCode : String
  destinationAirportCode : String
  departureDate : String
  arrivalDate : String
  numberOfPassengers : Int
  paymentMethod : String
  deriving DecidableEq, Repr

/-- The success payload of `reserve_flight` / `confirm_reservation`. -/
structure ReservationResponse where
  reservationId : String
  reservationStatus : String
  message : String
  deriving DecidableEq, Repr

/-- The hardcoded reservation id used by `reserve_flight`
(`reservation_id = "55f0b400-..."`; dynamic generation is commented out). -/
def fixedReservationId : String := "55f0b400-e29b-41d4-a716-446655440000"

/-- The `RESERVATIONS` entry `reserve_flight` writes for a request. -/
def mkReservation (a : ReserveArgs) : Reservation :=
  { departureAirportCode := a.departureAirportCode
    destinationAirportCode := a.destinationAirportCode
    departureDate := a.departureDate
    arrivalDate := a.arrivalDate
    numberOfPassengers := a.numberOfPassengers
    paymentMethod := a.paymentMethod
    reservationStatus := "PENDING" }

/-- Embedding of the `reserve_flight` tool. It validates that
`departureAirportCode`, `destinationAirportCode`, `departureDate` and
`paymentMethod` are truthy (`if not (... and ...)`), raising `MISSING_DETAILS`
otherwise, then writes a fresh `PENDING` entry under the hardcoded id.
The `except CheckoutError` handler re-raises with `request_id` / `timestamp`
merged into the details. Returns the result together with the store after the
call (unchanged on the raise path, which precedes the dict write). -/
def reserve_flight (rid ts : String) (a : ReserveArgs) (s : Store) :
    Except CheckoutError ReservationResponse × Store :=
  if a.departureAirportCode = "" ∨ a.destinationAirportCode = "" ∨
      a.departureDate = "" ∨ a.paymentMethod = "" then
    (.error { message := "Missing required reservation details"
              error_code := "MISSING_DETAILS"
              details := [("request_id", .str rid), ("timestamp", .str ts)] }, s)
  else
    (.ok { reservationId := fixedReservationId
           reservationStatus := "PENDING"
           message := "Reservation " ++ fixedReservationId ++
             " created successfully. Awaiting confirmation." },
     s.set fixedReservationId (mkReservation a))

/-- Embedding of the `confirm_reservation` tool: `RESERVATION_NOT_FOUND` if
the id is not a key of `RESERVATIONS`, `RESERVATION_NOT_PENDING` (with
`current_status` in the details) if the stored status is not `"PENDING"`,
otherwise flips the entry's status to `"CONFIRMED"`. The `except` handler
merges `request_id` / `timestamp` into the details of a raised error. -/
def confirm_reservation (rid ts reservationId : String) (s : Store) :
    Except CheckoutError ReservationResponse × Store :=
  match s reservationId with
  | none =>
    (.error { message := "Reservation ID " ++ reservationId ++ " not found"
              error_code := "RESERVATION_NOT_FOUND"
              details := [("reservationId", .str reservationId),
                          ("request_id", .str rid), ("timestamp", .str ts)] }, s)
  | some r =>
    if r.reservationStatus ≠ "PENDING" then
      (.error { message := "Reservation ID " ++ reservationId ++
                  " is not pending (current status: " ++ r.reservationStatus ++ ")"
                error_code := "RESERVATION_NOT_PENDING"
                details := [("reservationId", .str reservationId),
                            ("current_status", .str r.reservationStatus),
                            ("request_id", .str rid), ("timestamp", .str ts)] }, s)
    else
      (.ok { reservationId := reservationId
             reservationStatus := "CONFIRMED"
             message := "Reservation " ++ reservationId ++ " confirmed successfully." },
       s.set reservationId { r with reservationStatus := "CONFIRMED" })

/-- One invocation of a checkout tool (the operations that touch
`RESERVATIONS`), with its nondeterministic request id / timestamp. -/
inductive Op where
  | reserve (rid ts : String) (a : ReserveArgs)
  | confirm (rid ts id : String)
  deriving Repr

/-- The store after one tool invocation (the result payload is dropped). -/
def Op.apply (s : Store) : Op → Store
  | .reserve rid ts a => (reserve_flight rid ts a s).2
  | .confirm rid ts id => (confirm_reservation rid ts id s).2

/-- The store after a sequence of tool invocations. -/
def runOps (s : Store) : List Op → Store
  | [] => s
  | op :: rest => runOps (Op.apply s op) rest

/-- The store after a sequence of `confirm_reservation` calls only
(each given as `(rid, ts, reservationId)`). -/
def runConfirms (s : Store) : List (String × String × String) → Store
  | [] => s
  | (rid, ts, id) :: rest => runConfirms (confirm_reservation rid ts id s).2 rest

/-- A concrete well-formed reservation request, used in witnesses and
counterexamples. -/
def exArgs : ReserveArgs :=
  { departureAirportCode := "JFK", destinationAirportCode := "LHR"
    departureDate := "2025-06-04", arrivalDate := "2025-06-05"
    numberOfPassengers := 1, paymentMethod := "pm-123" }

/-- A reservation entry in terminal state `CONFIRMED`. -/
def exConfirmed : Reservation :=
  { mkReservation exArgs with reservationStatus := "CONFIRMED" }

/-- A store already holding a `CONFIRMED` entry under the hardcoded id. -/
def exStore : Store := Store.empty.set fixedReservationId exConfirmed

/-! ## Benefits MCP server (`benefits_mcp_server.py`) -/

/-- One entry of a card's `multipliers` list in `MOCK_CARD_BENEFITS`. -/
structure Multiplier where
  category : String
  multiplier : Rat
  description : String
  deriving DecidableEq, Repr

/-- One entry of a card's `perks` list in `MOCK_CARD_BENEFITS`. -/
structure Perk where
  name : String
  description : String
  value : Option Rat
  deriving DecidableEq, Repr

/-- One card's record in `MOCK_CARD_BENEFITS`. -/
structure CardBenefits where
  card_id : String
  card_name : String
  annual_fee : Rat
  multipliers : List Multiplier
  perks : List Perk
  point_value : Rat
  deriving DecidableEq, Repr

/-- The `"freedom"` entry of `MOCK_CARD_BENEFITS`. -/
def freedomCard : CardBenefits :=
  { card_id := "freedom", card_name := "Chase Freedom", annual_fee := 0
    multipliers :=
      [{ category := "rotating_categories", multiplier := 5
         description := "5% cash back on up to $1,500 in combined purchases in rotating categories each quarter" },
       { category := "all_other_purchases", multiplier := 1
         description := "1% cash back on all other purchases" }]
    perks := [{ name := "No Annual Fee", description := "No annual fee", value := some 0 }]
    point_value := 1 }

/-- The `"freedom_unlimited"` entry of `MOCK_CARD_BENEFITS`. -/
def freedomUnlimitedCard : CardBenefits :=
  { card_id := "freedom_unlimited", card_name := "Chase Freedom Unlimited", annual_fee := 0
    multipliers :=
      [{ category := "all_purchases", multiplier := 1.5
         description := "1.5% cash back on all purchases" }]
    perks := [{ name := "No Annual Fee", description := "No annual fee", value := some 0 }]
    point_value := 1 }

/-- The `"sapphire_preferred"` entry of `MOCK_CARD_BENEFITS`. -/
def sapphirePreferredCard : CardBenefits :=
  { card_id := "sapphire_preferred", card_name := "Chase Sapphire Preferred", annual_fee := 95
    multipliers :=
      [{ category := "travel_dining", multiplier := 2
         description := "2X points on travel and dining at restaurants" },
       { category := "all_other_purchases", multiplier := 1
         description := "1X points on all other purchases" }]
    perks :=
      [{ name := "Annual Fee", description := "$95 annual fee", value := some 95 },
       { name := "Transfer Partners"
         description := "Transfer points to airline and hotel partners", value := none }]
    point_value := 1.25 }

/-- The `"sapphire_reserve"` entry of `MOCK_CARD_BENEFITS`. -/
def sapphireReserveCard : CardBenefits :=
  { card_id := "sapphire_reserve", card_name := "Chase Sapphire Reserve", annual_fee := 550
    multipliers :=
      [{ category := "travel_dining", multiplier := 3
         description := "3X points on travel and dining at restaurants" },
       { category := "all_other_purchases", multiplier := 1
         description := "1X points on all other purchases" }]
    perks :=
      [{ name := "Annual Fee", description := "$550 annual fee", value := some 550 },
       { name := "Travel Credit", description := "$300 annual travel credit", value := some 300 },
       { name := "Transfer Partners"
         description := "Transfer points to airline and hotel partners", value := none },
       { name := "Priority Pass", description := "Priority Pass Select membership", value := none }]
    point_value := 1.5 }

/-- The `MOCK_CARD_BENEFITS` dict, as an association list in insertion order. -/
def MOCK_CARD_BENEFITS : List (String × CardBenefits) :=
  [("freedom", freedomCard), ("freedom_unlimited", freedomUnlimitedCard),
   ("sapphire_preferred", sapphirePreferredCard), ("sapphire_reserve", sapphireReserveCard)]

/-- Embedding of the `CardBenefitsError` exception. -/
structure CardBenefitsError where
  message : String
  error_code : String
  details : List (String × DetailVal)
  deriving DecidableEq, Repr

/-- Embedding of `get_card_benefits_internal`: raises `MISSING_CARD_IDS` on an
empty list; collects benefits for known ids and the unknown ids in order; if
any id is unknown raises `INVALID_CARD_IDS` listing the invalid and valid ids;
otherwise returns the benefits list. -/
def get_card_benefits_internal (card_ids : List String) :
    Except CardBenefitsError (List CardBenefits) :=
  if card_ids = [] then
    .error { message := "No card IDs provided", error_code := "MISSING_CARD_IDS"
             details := [("required", .str "At least one card ID must be provided")] }
  else
    let invalid_cards := card_ids.filter fun c => (MOCK_CARD_BENEFITS.lookup c).isNone
    let benefits := card_ids.filterMap fun c => MOCK_CARD_BENEFITS.lookup c
    if invalid_cards ≠ [] then
      .error { message := "Invalid card IDs: " ++ String.intercalate ", " invalid_cards
               error_code := "INVALID_CARD_IDS"
               details := [("invalid_cards", .strList invalid_cards),
                           ("valid_cards", .strList (MOCK_CARD_BENEFITS.map Prod.fst))] }
    else
      .ok benefits

/-- The success payload of the `get_card_benefits` tool. -/
structure BenefitsToolResponse where
  cards : List CardBenefits
  request_id : String
  timestamp : String
  deriving DecidableEq, Repr

/-- Embedding of the `@mcp.tool()`-registered `get_card_benefits` (the second
definition of that name in the module, which shadows the wrapper that calls
`get_card_benefits_internal`): raises `MISSING_CARD_IDS` on an empty list
(re-raised with `request_id` / `timestamp` merged into the details), and
otherwise appends benefits for the ids found in `MOCK_CARD_BENEFITS`,
silently skipping unknown ids (only a warning is logged). -/
def get_card_benefits (rid ts : String) (card_ids : List String) :
    Except CardBenefitsError BenefitsToolResponse :=
  if card_ids = [] then
    .error { message := "No card IDs provided", error_code := "MISSING_CARD_IDS"
             details := [("required", .str "At least one card ID must be provided"),
                         ("request_id", .str rid), ("timestamp", .str ts)] }
  else
    .ok { cards := card_ids.filterMap fun c => MOCK_CARD_BENEFITS.lookup c
          request_id := rid, timestamp := ts }

/-! ## Chase Travel MCP server (`chase_travel_mcp_server.py`) -/

/-- One flight record in `MOCK_FLIGHTS` (the `class` key is named `cls`,
`class` being reserved in Lean). -/
structure Flight where
  airline : String
  flight_number : String
  departure_time : String
  arrival_time : String
  price : Rat
  cls : String
  deriving DecidableEq, Repr

/-- The `MOCK_FLIGHTS` dict: a single `"JFK-LHR"` route with four flights. -/
def MOCK_FLIGHTS : List (String × List Flight) :=
  [("JFK-LHR",
    [{ airline := "British Airways", flight_number := "BA178", departure_time := "10:00"
       arrival_time := "22:00", price := 800, cls := "economy" },
     { airline := "American Airlines", flight_number := "AA100", departure_time := "11:00"
       arrival_time := "23:00", price := 850, cls := "economy" },
     { airline := "United Airlines", flight_number := "UA880", departure_time := "12:00"
       arrival_time := "00:00", price := 900, cls := "economy" },
     { airline := "Delta", flight_number := "DL400", departure_time := "13:00"
       arrival_time := "01:00", price := 950, cls := "economy" }])]

/-- Embedding of the `TravelSearchError` exception. -/
structure TravelSearchError where
  message : String
  error_code : String
  details : List (String × DetailVal)
  deriving DecidableEq, Repr

/-- Embedding of `search_flights_internal`: `MISSING_ROUTE_INFO` if origin or
destination is falsy, `ROUTE_NOT_FOUND` if `origin ++ "-" ++ destination` is
not a key of `MOCK_FLIGHTS`, else the route's flight list. -/
def search_flights_internal (origin destination : String) :
    Except TravelSearchError (List Flight) :=
  if origin = "" ∨ destination = "" then
    .error { message := "Missing origin or destination", error_code := "MISSING_ROUTE_INFO"
             details := [("required", .str "Both origin and destination must be provided")] }
  else
    let route := origin ++ "-" ++ destination
    match MOCK_FLIGHTS.lookup route with
    | none =>
      .error { message := "No flights found for route " ++ route
               error_code := "ROUTE_NOT_FOUND"
               details := [("invalid_route", .str route),
                           ("available_routes", .strList (MOCK_FLIGHTS.map Prod.fst))] }
    | some flights => .ok flights

/-- The success payload of the `search_flights` tool. -/
structure FlightSearchToolResponse where
  flights : List Flight
  request_id : String
  timestamp : String
  deriving DecidableEq, Repr

/-- The optional `passengers` argument of `search_flights`
(`Optional[Dict[str, int]]`). -/
abbrev Passengers := Option (List (String × Int))

/-- Embedding of the `search_flights` tool: calls `search_flights_internal`
with origin and destination only (`departure_date`, `return_date`,
`passengers` and `cabin_class` are accepted but never read), wraps the flights
in a response with `request_id` / `timestamp`, and re-raises a
`TravelSearchError` with those two fields merged into its details. -/
def search_flights (rid ts origin destination departure_date : String)
    (return_date : Option String) (passengers : Passengers) (cabin_class : String) :
    Except TravelSearchError FlightSearchToolResponse :=
  match search_flights_internal origin destination with
  | .ok flights => .ok { flights := flights, request_id := rid, timestamp := ts }
  | .error e =>
    .error { message := e.message, error_code := e.error_code
             details := e.details ++ [("request_id", .str rid), ("timestamp", .str ts)] }

/-- The flights a `search_flights` call returns, `none` when it raises. -/
def flightsOf : Except TravelSearchError FlightSearchToolResponse → Option (List Flight)
  | .ok r => some r.flights
  | .error _ => none

/-! ## Session gateway (`travel_assistant.py`, `handler`) -/

/-- The inner loop of `handler` over one task: streams (in order) each chunk
produced by `agent.run_stream`, skipping falsy chunks (`if chunk:`). The
chunks are the already-stringified values sent over the websocket. -/
def streamTask : List String → List String
  | [] => []
  | c :: rest => (if c = "" then [] else [c]) ++ streamTask rest

/-- The outer loop of `handler` (`async for message in websocket`): each
inbound message is processed to completion — all of its task's chunks are
streamed — before the next message is read; every task gets a fresh
`CancellationToken()` that is never cancelled. `agent` maps a task message to
the chunk sequence `agent.run_stream` yields for it; the result is the full
sequence of chunks sent to the client, in order. -/
def handler (agent : String → List String) : List String → List String
  | [] => []
  | m :: rest => streamTask (agent m) ++ handler agent rest

/-- A concrete decision oracle for the gateway counterexample: task `"t1"`
yields two tool-call result chunks, any other task yields one. -/
def exAgent : String → List String :=
  fun m => if m = "t1" then ["r1", "r2"] else ["r3"]

/-- A store holding a `PENDING` entry under the hardcoded id, as left by a
successful `reserve_flight exArgs` on the empty store. -/
def exPendingStore : Store := Store.empty.set fixedReservationId (mkReservation exArgs)

/-! ## Theorems -/

/-- A `confirm_reservation` call (on any target id) never changes a stored
entry whose status is not `"PENDING"`: an unknown target or a non-pending
target leaves the store untouched, and a pending target only rewrites the
entry under the target id, which cannot be the non-pending one. -/
theorem confirm_apply_preserves_nonpending (rid ts tgt : String) (s : Store)
    (id : String) (r : Reservation) (h1 : s id = some r)
    (h2 : r.reservationStatus ≠ "PENDING") :
    (confirm_reservation rid ts tgt s).2 id = some r := by
  unfold confirm_reservation
  cases htgt : s tgt with
  | none => simpa using h1
  | some rt =>
    by_cases hst : rt.reservationStatus = "PENDING"
    · by_cases hid : id = tgt
      · subst hid
        rw [h1] at htgt
        cases htgt
        exact absurd hst h2
      · simp [hst, Store.set, hid, h1]
    · simp [hst, h1]

/-- Any sequence of `confirm_reservation` calls leaves a non-`PENDING`
entry exactly as it was. -/
theorem runConfirms_preserves_nonpending (id : String) (r : Reservation)
    (h2 : r.reservationStatus ≠ "PENDING") :
    ∀ (cs : List (String × String × String)) (s : Store), s id = some r →
      runConfirms s cs id = some r := by
  intro cs
  induction cs with
  | nil => intro s h1; simpa [runConfirms] using h1
  | cons c rest ih =>
    intro s h1
    obtain ⟨rid, ts, tgt⟩ := c
    exact ih _ (confirm_apply_preserves_nonpending rid ts tgt s id r h1 h2)

/-- C1 (counterexample): `reserve_flight` called on a store that already holds
a `CONFIRMED` entry under the hardcoded reservation id succeeds and replaces
that existing entry, so the claim that no pre-existing entry is ever mutated
or replaced by a successful `reserve_flight` is false. -/
theorem reserve_overwrites_confirmed_entry :
    exStore fixedReservationId = some exConfirmed ∧
    exConfirmed.reservationStatus = "CONFIRMED" ∧
    (reserve_flight "r1" "t1" exArgs exStore).1 =
      .ok { reservationId := fixedReservationId, reservationStatus := "PENDING"
            message := "Reservation " ++ fixedReservationId ++
              " created successfully. Awaiting confirmation." } ∧
    (reserve_flight "r1" "t1" exArgs exStore).2 fixedReservationId =
      some (mkReservation exArgs) ∧
    some (mkReservation exArgs) ≠ some exConfirmed := by
  refine ⟨rfl, rfl, rfl, rfl, by decide⟩

/-- C1 (amended): a successful `reserve_flight` writes a fresh `PENDING`
entry built from the request under the hardcoded reservation id, and leaves
every entry under any other id untouched; an existing entry under the
hardcoded id, however, is overwritten. -/
theorem reserve_success_fresh_pending_frame (rid ts : String) (a : ReserveArgs)
    (s : Store) (res : ReservationResponse) (s' : Store)
    (h : reserve_flight rid ts a s = (.ok res, s')) :
    s' fixedReservationId = some (mkReservation a) ∧
    (mkReservation a).reservationStatus = "PENDING" ∧
    ∀ k, k ≠ fixedReservationId → s' k = s k := by
  unfold reserve_flight at h
  split at h
  · have := congrArg Prod.fst h
    simp at this
  · have hs : s' = s.set fixedReservationId (mkReservation a) :=
      (congrArg Prod.snd h).symm
    subst hs
    refine ⟨by simp [Store.set], rfl, ?_⟩
    intro k hk
    simp [Store.set, hk]

/-- C1 (witness for the amended theorem): instantiated on the empty store and
the concrete request `exArgs`. -/
theorem reserve_success_fresh_pending_frame_witness :
    exPendingStore fixedReservationId = some (mkReservation exArgs) ∧
    (mkReservation exArgs).reservationStatus = "PENDING" ∧
    ∀ k, k ≠ fixedReservationId → exPendingStore k = Store.empty k :=
  reserve_success_fresh_pending_frame "r" "t" exArgs Store.empty
    { reservationId := fixedReservationId, reservationStatus := "PENDING"
      message := "Reservation " ++ fixedReservationId ++
        " created successfully. Awaiting confirmation." }
    exPendingStore rfl

/-- C2 (counterexample): with a `CONFIRMED` entry under the hardcoded id,
a later `reserve_flight` invocation replaces it by a fresh `PENDING` entry,
so `CONFIRMED` is not terminal under sequences that include `reserve_flight`. -/
theorem reserve_resets_confirmed_to_pending :
    exStore fixedReservationId = some exConfirmed ∧
    exConfirmed.reservationStatus = "CONFIRMED" ∧
    runOps exStore [Op.reserve "r1" "t1" exArgs] fixedReservationId =
      some (mkReservation exArgs) ∧
    (mkReservation exArgs).reservationStatus = "PENDING" := by
  refine ⟨rfl, rfl, rfl, rfl⟩

/-- C2 (amended): once an entry's status is not `"PENDING"` (in particular
`CONFIRMED` or `ABORTED`), no sequence of `confirm_reservation` calls ever
changes it again; `reserve_flight`, however, can overwrite the entry under the
hardcoded id and return it to `PENDING`. -/
theorem confirmed_terminal_under_confirms (s : Store) (id : String)
    (r : Reservation) (h1 : s id = some r) (h2 : r.reservationStatus ≠ "PENDING")
    (cs : List (String × String × String)) :
    runConfirms s cs id = some r :=
  runConfirms_preserves_nonpending id r h2 cs s h1

/-- C2 (witness): a `CONFIRMED` entry survives a further `confirm_reservation`
call on its own id. -/
theorem confirmed_terminal_under_confirms_witness :
    runConfirms exStore [("r2", "t2", fixedReservationId)] fixedReservationId =
      some exConfirmed :=
  confirmed_terminal_under_confirms exStore fixedReservationId exConfirmed rfl
    (by decide) [("r2", "t2", fixedReservationId)]

/-- C3: on a store whose entry for `id` is `PENDING`, the first
`confirm_reservation` succeeds with status `CONFIRMED` (updating the entry),
and an immediately following `confirm_reservation` on the same id raises
`RESERVATION_NOT_PENDING` with `current_status = "CONFIRMED"` in its details
while leaving the store unchanged. -/
theorem confirm_twice_first_ok_second_not_pending (s : Store) (id : String)
    (r : Reservation) (h1 : s id = some r) (h2 : r.reservationStatus = "PENDING")
    (rid1 ts1 rid2 ts2 : String) :
    confirm_reservation rid1 ts1 id s =
      (.ok { reservationId := id, reservationStatus := "CONFIRMED"
             message := "Reservation " ++ id ++ " confirmed successfully." },
       s.set id { r with reservationStatus := "CONFIRMED" }) ∧
    confirm_reservation rid2 ts2 id (s.set id { r with reservationStatus := "CONFIRMED" }) =
      (.error { message := "Reservation ID " ++ id ++
                  " is not pending (current status: " ++ "CONFIRMED" ++ ")"
                error_code := "RESERVATION_NOT_PENDING"
                details := [("reservationId", .str id),
                            ("current_status", .str "CONFIRMED"),
                            ("request_id", .str rid2), ("timestamp", .str ts2)] },
       s.set id { r with reservationStatus := "CONFIRMED" }) := by
  constructor
  · simp [confirm_reservation, h1, h2]
  · simp [confirm_reservation, Store.set]

/-- C3 (witness): instantiated on the store left by a successful
`reserve_flight`, whose hardcoded-id entry is `PENDING`. -/
theorem confirm_twice_first_ok_second_not_pending_witness :
    confirm_reservation "r2" "t2" fixedReservationId exPendingStore =
      (.ok { reservationId := fixedReservationId, reservationStatus := "CONFIRMED"
             message := "Reservation " ++ fixedReservationId ++ " confirmed successfully." },
       exPendingStore.set fixedReservationId
         { mkReservation exArgs with reservationStatus := "CONFIRMED" }) ∧
    confirm_reservation "r3" "t3" fixedReservationId
        (exPendingStore.set fixedReservationId
          { mkReservation exArgs with reservationStatus := "CONFIRMED" }) =
      (.error { message := "Reservation ID " ++ fixedReservationId ++
                  " is not pending (current status: " ++ "CONFIRMED" ++ ")"
                error_code := "RESERVATION_NOT_PENDING"
                details := [("reservationId", .str fixedReservationId),
                            ("current_status", .str "CONFIRMED"),
                            ("request_id", .str "r3"), ("timestamp", .str "t3")] },
       exPendingStore.set fixedReservationId
         { mkReservation exArgs with reservationStatus := "CONFIRMED" }) :=
  confirm_twice_first_ok_second_not_pending exPendingStore fixedReservationId
    (mkReservation exArgs) rfl rfl "r2" "t2" "r3" "t3"

/-- C4 (counterexample): `reserve_flight` with an empty `arrivalDate` (all
other fields present) is not rejected: it succeeds and creates a reservation
entry, so a missing arrival date is not validated. -/
theorem reserve_missing_arrival_date_succeeds :
    (reserve_flight "r1" "t1" { exArgs with arrivalDate := "" } Store.empty).1 =
      .ok { reservationId := fixedReservationId, reservationStatus := "PENDING"
            message := "Reservation " ++ fixedReservationId ++
              " created successfully. Awaiting confirmation." } ∧
    (reserve_flight "r1" "t1" { exArgs with arrivalDate := "" } Store.empty).2
        fixedReservationId =
      some (mkReservation { exArgs with arrivalDate := "" }) := by
  refine ⟨rfl, rfl⟩

/-- C4 (amended): `reserve_flight` validates only the presence of the
departure airport, destination airport, departure date and payment method:
if any of those four is missing (empty), it fails with the validation error
`MISSING_DETAILS` and no reservation entry is created (the store is returned
unchanged, and no external call exists in this code path at all); the arrival
date and the passenger count are not validated. -/
theorem reserve_missing_checked_field_validation (rid ts : String)
    (a : ReserveArgs) (s : Store)
    (h : a.departureAirportCode = "" ∨ a.destinationAirportCode = "" ∨
      a.departureDate = "" ∨ a.paymentMethod = "") :
    reserve_flight rid ts a s =
      (.error { message := "Missing required reservation details"
                error_code := "MISSING_DETAILS"
                details := [("request_id", .str rid), ("timestamp", .str ts)] }, s) := by
  unfold reserve_flight
  rw [if_pos h]

/-- C4 (witness for the amended theorem): a request with an empty
`paymentMethod` is rejected with `MISSING_DETAILS` and the store unchanged. -/
theorem reserve_missing_checked_field_validation_witness :
    reserve_flight "r1" "t1" { exArgs with paymentMethod := "" } Store.empty =
      (.error { message := "Missing required reservation details"
                error_code := "MISSING_DETAILS"
                details := [("request_id", .str "r1"), ("timestamp", .str "t1")] },
       Store.empty) :=
  reserve_missing_checked_field_validation "r1" "t1"
    { exArgs with paymentMethod := "" } Store.empty (by decide)

/-- C5: `confirm_reservation` on an id that is not a key of the store always
raises `RESERVATION_NOT_FOUND` — never `INTERNAL_ERROR` — with the unknown id
in the error details, and leaves the store unchanged. -/
theorem confirm_unknown_id_not_found (rid ts id : String) (s : Store)
    (h : s id = none) :
    confirm_reservation rid ts id s =
      (.error { message := "Reservation ID " ++ id ++ " not found"
                error_code := "RESERVATION_NOT_FOUND"
                details := [("reservationId", .str id),
                            ("request_id", .str rid), ("timestamp", .str ts)] }, s) := by
  unfold confirm_reservation
  rw [h]

/-- C5 (witness): confirming `"unknown-id"` on the empty store. -/
theorem confirm_unknown_id_not_found_witness :
    confirm_reservation "r1" "t1" "unknown-id" Store.empty =
      (.error { message := "Reservation ID " ++ "unknown-id" ++ " not found"
                error_code := "RESERVATION_NOT_FOUND"
                details := [("reservationId", .str "unknown-id"),
                            ("request_id", .str "r1"), ("timestamp", .str "t1")] },
       Store.empty) :=
  confirm_unknown_id_not_found "r1" "t1" "unknown-id" Store.empty rfl

/-- C6: the `@mcp.tool()`-registered `get_card_benefits` — the one actually
exposed to the dispatcher, which shadows the wrapper around
`get_card_benefits_internal` — called with a list containing the unknown id
`"nonexistent"` does not fail: it returns a partial result that silently
omits the unknown id, while `get_card_benefits_internal` (and the shadowed
wrapper, and the exposed tool's own docstring) would raise
`INVALID_CARD_IDS` on the same input. -/
theorem benefits_tool_partial_on_invalid_id :
    get_card_benefits "r1" "t1" ["freedom", "nonexistent"] =
      .ok { cards := [freedomCard], request_id := "r1", timestamp := "t1" } ∧
    get_card_benefits_internal ["freedom", "nonexistent"] =
      .error { message := "Invalid card IDs: " ++ "nonexistent"
               error_code := "INVALID_CARD_IDS"
               details := [("invalid_cards", .strList ["nonexistent"]),
                           ("valid_cards", .strList
                             ["freedom", "freedom_unlimited",
                              "sapphire_preferred", "sapphire_reserve"])] } := by
  refine ⟨rfl, rfl⟩

/-- C7 (counterexample): with two task messages inbound on the same session
(`"t2"` arriving right behind `"t1"`, hence while `"t1"` is still
incomplete), the handler still streams every chunk of `"t1"` — in particular
`"r2"`, the result of `"t1"`'s second, still-outstanding tool call — before
starting `"t2"`; nothing is cancelled and no result is discarded, so the
claim that the superseded task's outstanding tool calls are cancelled and
their results never streamed is false. -/
theorem handler_streams_superseded_task_chunks :
    handler exAgent ["t1", "t2"] = ["r1", "r2", "r3"] ∧
    "r2" ∈ handler exAgent ["t1", "t2"] := by
  refine ⟨rfl, by decide⟩

/-- `streamTask` is exactly the filter keeping non-empty chunks. -/
theorem streamTask_eq_filter (l : List String) :
    streamTask l = l.filter fun c => c ≠ "" := by
  induction l with
  | nil => rfl
  | cons c rest ih =>
    by_cases hc : c = ""
    · subst hc; simp [streamTask, ih]
    · simp [streamTask, hc, ih]

/-- C7 (amended): the websocket handler processes inbound task messages
strictly sequentially: each task runs to completion — every non-empty chunk
its stream yields is sent, in order — before the next inbound message is
taken up; no tool call is ever cancelled and no result is ever discarded. -/
theorem handler_sequential_streams_all (agent : String → List String)
    (msgs : List String) :
    handler agent msgs =
      (msgs.map fun m => (agent m).filter fun c => c ≠ "").flatten := by
  induction msgs with
  | nil => rfl
  | cons m rest ih => simp [handler, streamTask_eq_filter, ih]

/-- Any sequence of checkout tool invocations, started from a store whose
only possible key is the hardcoded reservation id, keeps every other key
absent: `reserve_flight` only ever writes the hardcoded id, and
`confirm_reservation` only rewrites a key that is already present. -/
theorem runOps_other_keys_none (ops : List Op) :
    ∀ s : Store, (∀ k, k ≠ fixedReservationId → s k = none) →
      ∀ k, k ≠ fixedReservationId → runOps s ops k = none := by
  induction ops with
  | nil => exact fun s hs k hk => hs k hk
  | cons op rest ih =>
    intro s hs k hk
    refine ih _ ?_ k hk
    intro k2 hk2
    cases op with
    | reserve rid ts a =>
      simp only [runOps, Op.apply, reserve_flight]
      split
      · exact hs k2 hk2
      · simpa [Store.set, hk2] using hs k2 hk2
    | confirm rid ts tgt =>
      simp only [runOps, Op.apply, confirm_reservation]
      cases htgt : s tgt with
      | none => exact hs k2 hk2
      | some rt =>
        by_cases hst : rt.reservationStatus = "PENDING"
        · by_cases hkt : k2 = tgt
          · subst hkt
            rw [hs k2 hk2] at htgt
            cases htgt
          · simpa [hst, Store.set, hkt] using hs k2 hk2
        · simpa [hst] using hs k2 hk2

/-- C8: every successful `reserve_flight` returns the hardcoded constant
`"55f0b400-e29b-41d4-a716-446655440000"` as `reservationId`, and — starting
from the empty `RESERVATIONS` dict — no sequence of `reserve_flight` /
`confirm_reservation` calls ever puts an entry under any other key, so the
store never holds more than the single hardcoded entry. -/
theorem reserve_fixed_id_store_singleton :
    (∀ (rid ts : String) (a : ReserveArgs) (s : Store)
        (res : ReservationResponse) (s' : Store),
      reserve_flight rid ts a s = (.ok res, s') →
        res.reservationId = fixedReservationId) ∧
    (∀ (ops : List Op) (k : String), k ≠ fixedReservationId →
      runOps Store.empty ops k = none) := by
  constructor
  · intro rid ts a s res s' h
    unfold reserve_flight at h
    split at h
    · have := congrArg Prod.fst h
      simp at this
    · have := congrArg Prod.fst h
      simp only [Except.ok.injEq] at this
      rw [← this]
  · intro ops k hk
    exact runOps_other_keys_none ops Store.empty (fun _ _ => rfl) k hk

/-- C8 (witness): the success response on the empty store carries the
hardcoded id, and after one reservation the key `"other-key"` is absent. -/
theorem reserve_fixed_id_store_singleton_witness :
    ({ reservationId := fixedReservationId, reservationStatus := "PENDING"
       message := "Reservation " ++ fixedReservationId ++
         " created successfully. Awaiting confirmation." } :
      ReservationResponse).reservationId = fixedReservationId ∧
    runOps Store.empty [Op.reserve "r" "t" exArgs] "other-key" = none :=
  ⟨reserve_fixed_id_store_singleton.1 "r" "t" exArgs Store.empty _ exPendingStore rfl,
   reserve_fixed_id_store_singleton.2 [Op.reserve "r" "t" exArgs] "other-key" (by decide)⟩

/-- C9: the flights returned by `search_flights` depend only on `origin` and
`destination`: two calls agreeing on those two arguments return the same
flights list (or both fail), whatever their `departure_date`, `return_date`,
`passengers` and `cabin_class`. -/
theorem search_flights_route_determines_flights (origin destination : String)
    (rid1 ts1 dd1 : String) (rd1 : Option String) (p1 : Passengers) (cc1 : String)
    (rid2 ts2 dd2 : String) (rd2 : Option String) (p2 : Passengers) (cc2 : String) :
    flightsOf (search_flights rid1 ts1 origin destination dd1 rd1 p1 cc1) =
    flightsOf (search_flights rid2 ts2 origin destination dd2 rd2 p2 cc2) := by
  unfold search_flights
  cases search_flights_internal origin destination <;> rfl

/-- C10: whenever `confirm_reservation` raises (unknown id or non-pending
entry), the store after the call is exactly the store before it. -/
theorem confirm_error_preserves_store (rid ts id : String) (s : Store)
    (e : CheckoutError) (h : (confirm_reservation rid ts id s).1 = .error e) :
    (confirm_reservation rid ts id s).2 = s := by
  unfold confirm_reservation at h ⊢
  cases hid : s id with
  | none => rfl
  | some r =>
    rw [hid] at h
    by_cases hst : r.reservationStatus = "PENDING"
    · simp [hst] at h
    · simp [hst]

/-- C10 (witness): a failing confirmation on the empty store leaves it
empty. -/
theorem confirm_error_preserves_store_witness :
    (confirm_reservation "r1" "t1" "unknown-id" Store.empty).2 = Store.empty :=
  confirm_error_preserves_store "r1" "t1" "unknown-id" Store.empty
    { message := "Reservation ID " ++ "unknown-id" ++ " not found"
      error_code := "RESERVATION_NOT_FOUND"
      details := [("reservationId", .str "unknown-id"),
                  ("request_id", .str "r1"), ("timestamp", .str "t1")] }
    rfl

end TravelAgent
